import Mathlib

/-!
Shallow embedding of the `bookSearch` Lightning Web Component
(`force-app/main/default/lwc/bookSearch/bookSearch.js`).

The component is a single-threaded, event-driven controller.  Each JS
handler is modelled as a pure function from the component state (plus the
outcome of any awaited external call, passed in as an `Except` value) to
the new component state together with the list of toast notifications it
emitted.  JS numbers are modelled as exact rationals; `undefined`/`null`
prices as `Option ℚ`; the JS `Set` of favorite ids as an insertion-ordered
duplicate-free list with `add` / `delete` / `has` operations.
-/

namespace BookSearch

/-- A raw catalog record as returned by the Apex backend
(`getAllBooks` / `getBooks`).  Field names follow the source
(`Id`, `Name`, `Price__c`, `Language__c`, `Genre__c`). -/
structure BookRecord where
  Id : String
  Name : String
  Price__c : Option ℚ
  Language__c : String
  Genre__c : String
  deriving Repr, DecidableEq

/-- A displayed book: the raw record spread together with the derived UI
fields `isFavorite` and `priceFormatted` (the `...book` spread in the
`map` calls of `wiredBooks` and `performSearch`). -/
structure Book extends BookRecord where
  isFavorite : Bool
  priceFormatted : String
  deriving Repr, DecidableEq

/-- Session credentials returned by `getSessionInfo`. -/
structure SessionInfo where
  accessToken : String
  sessionId : String
  deriving Repr, DecidableEq

/-- A toast notification dispatched by `showToast(title, message, variant)`. -/
structure Toast where
  title : String
  message : String
  variant : String
  deriving Repr, DecidableEq

/-- The component's tracked state (the `@track` fields of the class). -/
structure ComponentState where
  books : List Book
  searchTerm : String
  isLoading : Bool
  favoriteBooks : List String
  sessionInfo : Option SessionInfo
  showRecommendations : Bool
  recommendations : String
  selectedBookName : String
  deriving Repr, DecidableEq

/-- JS `Set.prototype.has`. -/
def setHas (s : List String) (x : String) : Bool :=
  s.contains x

/-- JS `Set.prototype.add`: inserts at the end when not yet present. -/
def setAdd (s : List String) (x : String) : List String :=
  if x ∈ s then s else s ++ [x]

/-- JS `Set.prototype.delete`: removes the element when present. -/
def setDelete (s : List String) (x : String) : List String :=
  s.filter (fun y => y ≠ x)

/-- The two decimal digits of `n % 100`, as JS `toFixed(2)` renders the
fractional part. -/
def twoDigits (n : Nat) : String :=
  String.mk [Char.ofNat (48 + n / 10 % 10), Char.ofNat (48 + n % 10)]

/-- Floor of a rational, computed from its reduced fraction (agrees with
`Int.floor`, see `ratFloor_eq_floor`). -/
def ratFloor (q : ℚ) : ℤ :=
  q.num / (q.den : ℤ)

/-- `p.toFixed(2)` for a JS number modelled as an exact rational: round
half away from zero to a whole number of cents, then print with exactly
two fractional digits. -/
def toFixed2 (p : ℚ) : String :=
  let a : ℚ := if p < 0 then -p else p
  let c : ℕ := (ratFloor (a * 100 + 1 / 2)).toNat
  (if p < 0 then "-" else "") ++ toString (c / 100) ++ "." ++ twoDigits (c % 100)

/-- `formatPrice(price)` from the source: a falsy price (absent,
`undefined`, or `0`) renders as the fixed string `"$0.00"`; any other
number renders as `"$" + price.toFixed(2)`. -/
def formatPrice (price : Option ℚ) : String :=
  match price with
  | some p => if p ≠ 0 then "$" ++ toFixed2 p else "$0.00"
  | none => "$0.00"

/-- `true` when the string ends in a dot followed by exactly two decimal
digit characters — the shape of a currency string with exactly two
fractional digits. -/
def endsInTwoFracDigits (s : String) : Bool :=
  match s.data.reverse with
  | d1 :: d2 :: c :: _ => d2.isDigit && d1.isDigit && (c = '.')
  | _ => false

/-- Maps a raw record to a displayed book in `wiredBooks`:
`isFavorite` is set to `false` unconditionally. -/
def loadBook (b : BookRecord) : Book :=
  { b with isFavorite := false, priceFormatted := formatPrice b.Price__c }

/-- Maps a raw record to a displayed book in `performSearch`:
`isFavorite` is restored from `favoriteBooks` by id membership. -/
def searchBook (favoriteBooks : List String) (b : BookRecord) : Book :=
  { b with isFavorite := setHas favoriteBooks b.Id,
           priceFormatted := formatPrice b.Price__c }

/-- `wiredBooks({ error, data })`: on data, replaces the book list with
the mapped records (all unfavorited); on error, emits the
"Failed to load books" toast and leaves the state untouched. -/
def wiredBooks (st : ComponentState) (result : Except Unit (List BookRecord)) :
    ComponentState × List Toast :=
  match result with
  | .ok data => ({ st with books := data.map loadBook }, [])
  | .error _ => (st, [⟨"Error", "Failed to load books", "error"⟩])

/-- `performSearch()`: sets `isLoading`, awaits `getBooks` (its outcome is
the `result` argument); on success replaces the book list with the mapped
results, on failure emits the "Failed to search books" toast; the
`finally` block clears `isLoading` in every case. -/
def performSearch (st : ComponentState) (result : Except Unit (List BookRecord)) :
    ComponentState × List Toast :=
  let st₀ := { st with isLoading := true }
  match result with
  | .ok recs =>
      ({ st₀ with books := recs.map (searchBook st₀.favoriteBooks),
                  isLoading := false }, [])
  | .error _ =>
      ({ st₀ with isLoading := false },
       [⟨"Error", "Failed to search books", "error"⟩])

/-- `getRecommendations(book)`: aborts with the
"Recommendation service not initialized" toast when `sessionInfo` is
absent; otherwise records the selection, sets `isLoading`, awaits
`invokeAgent` (its outcome is the `agentResult` argument), on success
stores the returned text (or the fixed placeholder when the response is
empty/falsy) and shows the panel, on failure emits the
"Failed to get book recommendations" toast; the `finally` block clears
`isLoading`. -/
def getRecommendations (st : ComponentState) (book : Book)
    (agentResult : Except Unit String) : ComponentState × List Toast :=
  match st.sessionInfo with
  | none => (st, [⟨"Error", "Recommendation service not initialized", "error"⟩])
  | some _ =>
      let st₁ := { st with selectedBookName := book.Name, isLoading := true }
      match agentResult with
      | .ok recs =>
          ({ st₁ with
              recommendations :=
                if recs = "" then "No recommendations available at this time."
                else recs,
              showRecommendations := true,
              isLoading := false }, [])
      | .error _ =>
          ({ st₁ with isLoading := false },
           [⟨"Error", "Failed to get book recommendations", "error"⟩])

/-- The favorite button's visual state (`iconName`, `variant`). -/
structure ButtonState where
  iconName : String
  variant : String
  deriving Repr, DecidableEq

/-- The visual state the handler assigns for a given favorite flag. -/
def favoriteVisual (isFavorite : Bool) : ButtonState :=
  if isFavorite then ⟨"utility:favorite", "brand"⟩
  else ⟨"utility:favorite_alt", "border-filled"⟩

/-- In-place mutation of the first book whose `Id` matches (JS `find`
returns the first matching object and the handler mutates it). -/
def updateFirst (bookId : String) (f : Book → Book) : List Book → List Book
  | [] => []
  | b :: rest =>
      if b.Id = bookId then f b :: rest
      else b :: updateFirst bookId f rest

/-- `handleFavoriteToggle(event)`: looks up the book by id (no-op when
absent), flips its `isFavorite` flag in place, updates the button visuals
and `favoriteBooks`, emits the success toast, and on transition to
favorited awaits `getRecommendations` (whose agent outcome is the
`agentResult` argument). -/
def handleFavoriteToggle (st : ComponentState) (btn : ButtonState)
    (bookId : String) (agentResult : Except Unit String) :
    ComponentState × ButtonState × List Toast :=
  match st.books.find? (fun b => b.Id = bookId) with
  | none => (st, btn, [])
  | some book =>
      let newFav := !book.isFavorite
      let book' := { book with isFavorite := newFav }
      let books' := updateFirst bookId (fun b => { b with isFavorite := newFav }) st.books
      if newFav then
        let st₁ := { st with books := books',
                             favoriteBooks := setAdd st.favoriteBooks bookId }
        let toast : Toast := ⟨"Success", book.Name ++ " added to favorites", "success"⟩
        let (st₂, toasts₂) := getRecommendations st₁ book' agentResult
        (st₂, favoriteVisual true, toast :: toasts₂)
      else
        ({ st with books := books',
                   favoriteBooks := setDelete st.favoriteBooks bookId },
         favoriteVisual false,
         [⟨"Success", book.Name ++ " removed from favorites", "success"⟩])

/-- `handleCloseRecommendations()`: fully resets the recommendation
panel state. -/
def handleCloseRecommendations (st : ComponentState) : ComponentState :=
  { st with showRecommendations := false, recommendations := "",
            selectedBookName := "" }

/-- Debounce semantics of `handleSearchChange`: given the keystroke
events as (time, input text) pairs in chronological order, each keystroke
cancels the pending 300ms timer (`clearTimeout`) and schedules
`performSearch` 300ms later (`setTimeout`); a scheduled search fires
exactly when no further keystroke arrives strictly before its deadline.
The result lists, in order, the search terms whose scheduled searches
actually fire. -/
def firedSearches : List (ℕ × String) → List String
  | [] => []
  | [(_, s)] => [s]
  | (t₁, s₁) :: (t₂, s₂) :: rest =>
      if t₂ < t₁ + 300 then firedSearches ((t₂, s₂) :: rest)
      else s₁ :: firedSearches ((t₂, s₂) :: rest)

end BookSearch

namespace BookSearch

/-! ### Helper lemmas -/

theorem digitChar_isDigit (k : ℕ) (h : k < 10) :
    (Char.ofNat (48 + k)).isDigit = true := by
  interval_cases k <;> decide

theorem endsInTwoFracDigits_append (s : String) (m : ℕ) :
    endsInTwoFracDigits (s ++ "." ++ twoDigits m) = true := by
  have h1 : (s ++ "." ++ twoDigits m).data
      = s.data ++ ('.' :: [Char.ofNat (48 + m / 10 % 10), Char.ofNat (48 + m % 10)]) := by
    simp [twoDigits, String.data_append]
  unfold endsInTwoFracDigits
  rw [h1]
  simp only [List.reverse_append, List.reverse_cons, List.reverse_nil]
  simp only [List.nil_append, List.cons_append, List.append_assoc]
  rw [digitChar_isDigit (m / 10 % 10) (Nat.mod_lt _ (by norm_num)),
      digitChar_isDigit (m % 10) (Nat.mod_lt _ (by norm_num))]
  decide

theorem toFixed2_shape (p : ℚ) :
    "$" ++ toFixed2 p
      = ("$" ++ (if p < 0 then "-" else "")
          ++ toString ((ratFloor ((if p < 0 then -p else p) * 100 + 1 / 2)).toNat / 100))
        ++ "."
        ++ twoDigits ((ratFloor ((if p < 0 then -p else p) * 100 + 1 / 2)).toNat % 100) := by
  unfold toFixed2
  simp [String.ext_iff, String.data_append]

theorem endsInTwoFracDigits_formatPrice (p : ℚ) (h : p ≠ 0) :
    endsInTwoFracDigits (formatPrice (some p)) = true := by
  have hfp : formatPrice (some p) = "$" ++ toFixed2 p := by
    simp [formatPrice, h]
  rw [hfp, toFixed2_shape]
  exact endsInTwoFracDigits_append _ _

/-- Evaluation scheme for `formatPrice` at a nonnegative rational: feed in
the normalised value of `p * 100 + 1/2` and its floor in cents. -/
theorem formatPrice_eval (p : ℚ) (lit : ℚ) (c : ℕ) (hp : p ≠ 0)
    (hnn : ¬ p < 0) (hlit : p * 100 + 1 / 2 = lit)
    (hc : (lit.num / (lit.den : ℤ)).toNat = c) :
    formatPrice (some p) = "$" ++ toString (c / 100) ++ "." ++ twoDigits (c % 100) := by
  have hfp : formatPrice (some p) = "$" ++ toFixed2 p := by
    simp [formatPrice, hp]
  rw [hfp]
  simp only [toFixed2, ratFloor, if_neg hnn]
  rw [hlit, hc]
  simp [String.ext_iff, String.data_append]

end BookSearch

namespace BookSearch

/-- `ratFloor` agrees with the mathematical floor. -/
theorem ratFloor_eq_floor (q : ℚ) : ratFloor q = ⌊q⌋ :=
  Rat.floor_def.symm

/-! ### Claim theorems -/

/-- C1: `formatPrice` returns the fixed string "$0.00" for an absent,
undefined, or zero price; every other numeric price is rendered as a
currency string ("$" followed by the `toFixed(2)` rendering) ending in a
dot and exactly two fractional digits; in particular
`formatPrice undefined = "$0.00"`, `formatPrice 0 = "$0.00"`,
`formatPrice 12.5 = "$12.50"` and `formatPrice 9.999 = "$10.00"`. -/
theorem formatPrice_correct :
    formatPrice none = "$0.00" ∧
    formatPrice (some 0) = "$0.00" ∧
    formatPrice (some (25 / 2)) = "$12.50" ∧
    formatPrice (some (9999 / 1000)) = "$10.00" ∧
    ∀ p : ℚ, p ≠ 0 →
      formatPrice (some p) = "$" ++ toFixed2 p ∧
      endsInTwoFracDigits (formatPrice (some p)) = true := by
  refine ⟨rfl, by simp [formatPrice], ?_, ?_, ?_⟩
  · rw [formatPrice_eval (25 / 2) (2501 / 2) 1250 (by norm_num) (by norm_num)
      (by norm_num) (by norm_num; try decide)]
    decide
  · rw [formatPrice_eval (9999 / 1000) (10004 / 10) 1000 (by norm_num) (by norm_num)
      (by norm_num) (by norm_num; try decide)]
    decide
  · intro p hp
    exact ⟨by simp [formatPrice, hp], endsInTwoFracDigits_formatPrice p hp⟩

/-- Witness for C1: the nonzero-price clause at the concrete price 7. -/
theorem formatPrice_correct_witness :
    formatPrice (some 7) = "$" ++ toFixed2 7 ∧
    endsInTwoFracDigits (formatPrice (some 7)) = true :=
  formatPrice_correct.2.2.2.2 7 (by norm_num)

/-- C2: a successful `performSearch` replaces the book list (not merges)
with the mapped results, each mapped book carrying
`isFavorite = setHas favoriteBooks Id` and
`priceFormatted = formatPrice Price__c`; in particular a search returning
the single record (id "1", name "Dune", price 15, English, SciFi) yields
exactly one entry with `priceFormatted = "$15.00"` and `isFavorite` equal
to the FavoriteSet membership of "1". -/
theorem performSearch_success_replaces :
    (∀ st recs, (performSearch st (Except.ok recs)).1.books
        = recs.map (searchBook st.favoriteBooks)) ∧
    (∀ favs b, searchBook favs b
        = { b with isFavorite := setHas favs b.Id,
                   priceFormatted := formatPrice b.Price__c }) ∧
    ∀ st, (performSearch st (Except.ok
        [⟨"1", "Dune", some 15, "English", "SciFi"⟩])).1.books
      = [⟨⟨"1", "Dune", some 15, "English", "SciFi"⟩,
          setHas st.favoriteBooks "1", "$15.00"⟩] := by
  have h15 : formatPrice (some 15) = "$15.00" := by
    rw [formatPrice_eval 15 (3001 / 2) 1500 (by norm_num) (by norm_num)
      (by norm_num) (by norm_num; try decide)]
    decide
  refine ⟨fun st recs => rfl, fun favs b => rfl, fun st => ?_⟩
  simp [performSearch, searchBook, h15]

/-- C3: a failing `performSearch` leaves the book list unchanged and emits
exactly the single "Failed to search books" error toast; the loading flag
is cleared after every outcome (success or failure). -/
theorem performSearch_failure_frame :
    ∀ st, (performSearch st (Except.error ())).1.books = st.books ∧
      (performSearch st (Except.error ())).2
        = [⟨"Error", "Failed to search books", "error"⟩] ∧
      ∀ result, (performSearch st result).1.isLoading = false := by
  intro st
  refine ⟨rfl, rfl, fun result => ?_⟩
  cases result <;> rfl

end BookSearch

namespace BookSearch

/-- C4: for every nonempty sequence of keystrokes in which each keystroke
arrives strictly within 300ms of the previous one (a single quiet-window
burst), exactly one search fires, with the final text of the sequence;
every earlier scheduled search is superseded and never fires. -/
theorem debounce_last_only :
    ∀ (ks : List (ℕ × String)) (h : ks ≠ []),
      List.Chain' (fun a b => b.1 < a.1 + 300) ks →
      firedSearches ks = [(ks.getLast h).2] := by
  intro ks
  induction ks with
  | nil => intro h; exact absurd rfl h
  | cons a tl ih =>
    cases tl with
    | nil =>
      intro _ _
      simp [firedSearches]
    | cons b tl' =>
      intro _ hchain
      obtain ⟨t₁, s₁⟩ := a
      obtain ⟨t₂, s₂⟩ := b
      obtain ⟨hab, hchain'⟩ := List.chain'_cons.mp hchain
      have hstep : firedSearches ((t₁, s₁) :: (t₂, s₂) :: tl')
          = firedSearches ((t₂, s₂) :: tl') := by
        simp [firedSearches, hab]
      rw [hstep, ih (by simp) hchain',
        @List.getLast_cons _ (t₁, s₁) ((t₂, s₂) :: tl') (by simp)]

/-- Witness for C4: a three-keystroke burst at times 0, 100, 250 fires
exactly the final term. -/
theorem debounce_last_only_witness :
    firedSearches [(0, "D"), (100, "Du"), (250, "Dun")] = ["Dun"] :=
  debounce_last_only [(0, "D"), (100, "Du"), (250, "Dun")] (by decide)
    (by norm_num [List.chain'_cons])

end BookSearch

namespace BookSearch

theorem setHas_eq_true_iff (s : List String) (x : String) :
    setHas s x = true ↔ x ∈ s :=
  List.elem_iff

theorem mem_setAdd (s : List String) (x y : String) :
    y ∈ setAdd s x ↔ y ∈ s ∨ y = x := by
  unfold setAdd
  by_cases hx : x ∈ s
  · rw [if_pos hx]
    constructor
    · exact Or.inl
    · rintro (h | rfl)
      · exact h
      · exact hx
  · rw [if_neg hx]
    simp

theorem mem_setDelete (s : List String) (x y : String) :
    y ∈ setDelete s x ↔ y ∈ s ∧ y ≠ x := by
  simp [setDelete, List.mem_filter]

theorem getRecommendations_books_favs (st : ComponentState) (book : Book)
    (r : Except Unit String) :
    (getRecommendations st book r).1.books = st.books ∧
    (getRecommendations st book r).1.favoriteBooks = st.favoriteBooks := by
  rcases hsi : st.sessionInfo with _ | si <;> rcases r with _ | s <;>
    simp [getRecommendations, hsi]

theorem find?_updateFirst (bookId : String) (f : Book → Book)
    (hf : ∀ b, (f b).Id = b.Id) (books : List Book) :
    (updateFirst bookId f books).find? (fun b => b.Id = bookId)
      = (books.find? (fun b => b.Id = bookId)).map f := by
  induction books with
  | nil => rfl
  | cons b rest ih =>
    by_cases hb : b.Id = bookId
    · simp only [updateFirst, if_pos hb]
      rw [List.find?_cons_of_pos _ (by simp [hf, hb]),
          List.find?_cons_of_pos _ (by simp [hb])]
      rfl
    · simp only [updateFirst, if_neg hb]
      rw [List.find?_cons_of_neg _ (by simp [hb]),
          List.find?_cons_of_neg _ (by simp [hb]), ih]

end BookSearch

namespace BookSearch

theorem handleFavoriteToggle_eq (st : ComponentState) (btn : ButtonState)
    (bookId : String) (r : Except Unit String) (book : Book)
    (hfind : st.books.find? (fun b => b.Id = bookId) = some book) :
    handleFavoriteToggle st btn bookId r =
      if book.isFavorite then
        ({ st with
            books := updateFirst bookId
              (fun b => { b with isFavorite := false }) st.books,
            favoriteBooks := setDelete st.favoriteBooks bookId },
         favoriteVisual false,
         [⟨"Success", book.Name ++ " removed from favorites", "success"⟩])
      else
        (let st₁ : ComponentState :=
          { st with
              books := updateFirst bookId
                (fun b => { b with isFavorite := true }) st.books,
              favoriteBooks := setAdd st.favoriteBooks bookId }
         let p := getRecommendations st₁ { book with isFavorite := true } r
         (p.1, favoriteVisual true,
          ⟨"Success", book.Name ++ " added to favorites", "success"⟩ :: p.2)) := by
  unfold handleFavoriteToggle
  rw [hfind]
  rcases hfav : book.isFavorite with _ | _ <;> simp [hfav]

/-- Effects of a toggle that favorites (book currently unfavorited). -/
theorem toggle_on_effects (st : ComponentState) (btn : ButtonState)
    (bookId : String) (r : Except Unit String) (book : Book)
    (hfind : st.books.find? (fun b => b.Id = bookId) = some book)
    (hfav : book.isFavorite = false) :
    (handleFavoriteToggle st btn bookId r).1.books
        = updateFirst bookId (fun b => { b with isFavorite := true }) st.books ∧
    (handleFavoriteToggle st btn bookId r).1.favoriteBooks
        = setAdd st.favoriteBooks bookId ∧
    (handleFavoriteToggle st btn bookId r).2.1 = favoriteVisual true := by
  have h1 := handleFavoriteToggle_eq st btn bookId r book hfind
  rw [hfav] at h1
  simp only [Bool.false_eq_true, if_false] at h1
  refine ⟨?_, ?_, ?_⟩
  · rw [h1]
    exact (getRecommendations_books_favs _ _ _).1
  · rw [h1]
    exact (getRecommendations_books_favs _ _ _).2
  · rw [h1]

/-- Effects of a toggle that unfavorites (book currently favorited). -/
theorem toggle_off_effects (st : ComponentState) (btn : ButtonState)
    (bookId : String) (r : Except Unit String) (book : Book)
    (hfind : st.books.find? (fun b => b.Id = bookId) = some book)
    (hfav : book.isFavorite = true) :
    (handleFavoriteToggle st btn bookId r).1.books
        = updateFirst bookId (fun b => { b with isFavorite := false }) st.books ∧
    (handleFavoriteToggle st btn bookId r).1.favoriteBooks
        = setDelete st.favoriteBooks bookId ∧
    (handleFavoriteToggle st btn bookId r).2.1 = favoriteVisual false := by
  have h1 := handleFavoriteToggle_eq st btn bookId r book hfind
  rw [hfav] at h1
  simp only [if_true] at h1
  exact ⟨by rw [h1], by rw [h1], by rw [h1]⟩

end BookSearch

namespace BookSearch

theorem handleFavoriteToggle_twice (st : ComponentState) (btn : ButtonState)
    (bookId : String) (r₁ r₂ : Except Unit String) (book : Book)
    (hfind : st.books.find? (fun b => b.Id = bookId) = some book)
    (hagree : book.isFavorite = setHas st.favoriteBooks bookId)
    (hbtn : btn = favoriteVisual book.isFavorite) :
    (∀ y, setHas (handleFavoriteToggle
          (handleFavoriteToggle st btn bookId r₁).1
          (handleFavoriteToggle st btn bookId r₁).2.1 bookId r₂).1.favoriteBooks y
        = setHas st.favoriteBooks y) ∧
    (handleFavoriteToggle
        (handleFavoriteToggle st btn bookId r₁).1
        (handleFavoriteToggle st btn bookId r₁).2.1 bookId r₂).2.1 = btn := by
  rcases hfav : book.isFavorite with _ | _
  · -- currently unfavorited: first toggle favorites, second unfavorites
    have hnotmem : bookId ∉ st.favoriteBooks := fun hmem => by
      have hsf : setHas st.favoriteBooks bookId = false := hagree.symm.trans hfav
      simp [(setHas_eq_true_iff _ _).mpr hmem] at hsf
    obtain ⟨hb1, hf1, hv1⟩ := toggle_on_effects st btn bookId r₁ book hfind hfav
    have hfind2 : (handleFavoriteToggle st btn bookId r₁).1.books.find?
        (fun b => b.Id = bookId) = some { book with isFavorite := true } := by
      rw [hb1, find?_updateFirst bookId
        (fun b => { b with isFavorite := true }) (fun b => rfl) st.books, hfind]
      rfl
    obtain ⟨hb2, hf2, hv2⟩ := toggle_off_effects
      (handleFavoriteToggle st btn bookId r₁).1
      (handleFavoriteToggle st btn bookId r₁).2.1 bookId r₂
      { book with isFavorite := true } hfind2 rfl
    constructor
    · intro y
      rw [hf2, hf1, Bool.eq_iff_iff, setHas_eq_true_iff, setHas_eq_true_iff,
        mem_setDelete, mem_setAdd]
      constructor
      · rintro ⟨h | rfl, hne⟩
        · exact h
        · exact absurd rfl hne
      · intro hy
        exact ⟨Or.inl hy, fun h => hnotmem (h ▸ hy)⟩
    · rw [hv2, hbtn, hfav]
  · -- currently favorited: first toggle unfavorites, second favorites
    have hmem : bookId ∈ st.favoriteBooks :=
      (setHas_eq_true_iff _ _).mp (hagree.symm.trans hfav)
    obtain ⟨hb1, hf1, hv1⟩ := toggle_off_effects st btn bookId r₁ book hfind hfav
    have hfind2 : (handleFavoriteToggle st btn bookId r₁).1.books.find?
        (fun b => b.Id = bookId) = some { book with isFavorite := false } := by
      rw [hb1, find?_updateFirst bookId
        (fun b => { b with isFavorite := false }) (fun b => rfl) st.books, hfind]
      rfl
    obtain ⟨hb2, hf2, hv2⟩ := toggle_on_effects
      (handleFavoriteToggle st btn bookId r₁).1
      (handleFavoriteToggle st btn bookId r₁).2.1 bookId r₂
      { book with isFavorite := false } hfind2 rfl
    constructor
    · intro y
      rw [hf2, hf1, Bool.eq_iff_iff, setHas_eq_true_iff, setHas_eq_true_iff,
        mem_setAdd, mem_setDelete]
      constructor
      · rintro (⟨hy, _⟩ | rfl)
        · exact hy
        · exact hmem
      · intro hy
        by_cases hyx : y = bookId
        · exact Or.inr hyx
        · exact Or.inl ⟨hy, hyx⟩
    · rw [hv2, hbtn, hfav]

end BookSearch

namespace BookSearch

/-- The raw record used in the C5 counterexample, witness and examples. -/
def duneRecord : BookRecord := ⟨"1", "Dune", none, "English", "SciFi"⟩

/-- The component's state at mount (initial values of the tracked fields). -/
def initialState : ComponentState := ⟨[], "", false, [], none, false, "", ""⟩

/-- A reachable state in which id "1" is in FavoriteSet while its list
snapshot carries `isFavorite = false`: search, favorite the book, then let
the catalog wire re-fire (`wiredBooks` rebuilds the list unfavorited). -/
def staleState : ComponentState :=
  (wiredBooks
    ((handleFavoriteToggle
        (performSearch initialState (Except.ok [duneRecord])).1
        (favoriteVisual false) "1" (Except.error ())).1)
    (Except.ok [duneRecord])).1

/-- Counterexample to C5 as stated: in the reachable state `staleState`
the book with id "1" is present in the list (with the matching button
visual), id "1" is in FavoriteSet, yet after toggling its favorite flag
twice in succession id "1" is no longer in FavoriteSet — the original
membership is not restored. -/
theorem handleFavoriteToggle_twice_cex :
    (staleState.books.find? (fun b => b.Id = "1")).isSome = true ∧
    setHas staleState.favoriteBooks "1" = true ∧
    setHas (handleFavoriteToggle
        (handleFavoriteToggle staleState (favoriteVisual false) "1"
          (Except.error ())).1
        (handleFavoriteToggle staleState (favoriteVisual false) "1"
          (Except.error ())).2.1
        "1" (Except.error ())).1.favoriteBooks "1" = false := by
  decide

/-- C5 (amended): toggling a listed book's favorite flag twice restores
FavoriteSet membership and the button visuals, provided the book's
`isFavorite` flag agrees with its id's FavoriteSet membership and the
button shows the visual state for that flag. -/
theorem handleFavoriteToggle_twice_restores (st : ComponentState)
    (btn : ButtonState) (bookId : String) (r₁ r₂ : Except Unit String)
    (book : Book)
    (hfind : st.books.find? (fun b => b.Id = bookId) = some book)
    (hagree : book.isFavorite = setHas st.favoriteBooks bookId)
    (hbtn : btn = favoriteVisual book.isFavorite) :
    (∀ y, setHas (handleFavoriteToggle
          (handleFavoriteToggle st btn bookId r₁).1
          (handleFavoriteToggle st btn bookId r₁).2.1 bookId r₂).1.favoriteBooks y
        = setHas st.favoriteBooks y) ∧
    (handleFavoriteToggle
        (handleFavoriteToggle st btn bookId r₁).1
        (handleFavoriteToggle st btn bookId r₁).2.1 bookId r₂).2.1 = btn :=
  handleFavoriteToggle_twice st btn bookId r₁ r₂ book hfind hagree hbtn

/-- A state whose single book agrees with FavoriteSet (not favorited). -/
def freshState : ComponentState :=
  ⟨[⟨duneRecord, false, "$0.00"⟩], "", false, [], none, false, "", ""⟩

/-- Witness for the amended C5 at the concrete state `freshState`. -/
theorem handleFavoriteToggle_twice_restores_witness :
    setHas (handleFavoriteToggle
        (handleFavoriteToggle freshState (favoriteVisual false) "1"
          (Except.error ())).1
        (handleFavoriteToggle freshState (favoriteVisual false) "1"
          (Except.error ())).2.1
        "1" (Except.error ())).1.favoriteBooks "1"
      = setHas freshState.favoriteBooks "1" ∧
    (handleFavoriteToggle
        (handleFavoriteToggle freshState (favoriteVisual false) "1"
          (Except.error ())).1
        (handleFavoriteToggle freshState (favoriteVisual false) "1"
          (Except.error ())).2.1
        "1" (Except.error ())).2.1 = favoriteVisual false :=
  ⟨(handleFavoriteToggle_twice_restores freshState (favoriteVisual false) "1"
      (Except.error ()) (Except.error ()) ⟨duneRecord, false, "$0.00"⟩
      (by decide) (by decide) rfl).1 "1",
   (handleFavoriteToggle_twice_restores freshState (favoriteVisual false) "1"
      (Except.error ()) (Except.error ()) ⟨duneRecord, false, "$0.00"⟩
      (by decide) (by decide) rfl).2⟩

end BookSearch

namespace BookSearch

/-- C6: on catalog-loader data, every mapped book has `isFavorite = false`
unconditionally (the mapping never consults FavoriteSet, so this holds
even for ids already present in it) and `priceFormatted` computed from
its price; on loader failure the state — in particular the prior book
list — is left untouched and the single "Failed to load books" error
toast is raised. -/
theorem wiredBooks_spec :
    (∀ st data, (wiredBooks st (Except.ok data)).1.books = data.map loadBook) ∧
    (∀ b, (loadBook b).isFavorite = false ∧
          (loadBook b).priceFormatted = formatPrice b.Price__c) ∧
    (∀ st, (wiredBooks st (Except.error ())).1 = st ∧
           (wiredBooks st (Except.error ())).2
             = [⟨"Error", "Failed to load books", "error"⟩]) :=
  ⟨fun _ _ => rfl, fun _ => ⟨rfl, rfl⟩, fun _ => ⟨rfl, rfl⟩⟩

/-- C7: with no SessionInfo, `getRecommendations` returns the state
unchanged together with exactly the
"Recommendation service not initialized" error toast, for every agent
outcome (so the agent is never consulted and no RecommendationView is
opened); the favorite membership committed by the preceding toggle is
still `setAdd` of the book's id. -/
theorem getRecommendations_no_session (st : ComponentState) (book : Book)
    (r : Except Unit String) (h : st.sessionInfo = none) :
    getRecommendations st book r
      = (st, [⟨"Error", "Recommendation service not initialized", "error"⟩]) ∧
    ∀ btn bookId book₀,
      st.books.find? (fun b => b.Id = bookId) = some book₀ →
      book₀.isFavorite = false →
      (handleFavoriteToggle st btn bookId r).1.favoriteBooks
        = setAdd st.favoriteBooks bookId := by
  constructor
  · simp [getRecommendations, h]
  · intro btn bookId book₀ hfind hfav
    exact (toggle_on_effects st btn bookId r book₀ hfind hfav).2.1

/-- Witness for C7 at the concrete state `freshState`. -/
theorem getRecommendations_no_session_witness :
    getRecommendations freshState ⟨duneRecord, false, "$0.00"⟩ (Except.ok "x")
      = (freshState,
         [⟨"Error", "Recommendation service not initialized", "error"⟩]) ∧
    (handleFavoriteToggle freshState (favoriteVisual false) "1"
        (Except.ok "x")).1.favoriteBooks
      = setAdd freshState.favoriteBooks "1" :=
  ⟨(getRecommendations_no_session freshState ⟨duneRecord, false, "$0.00"⟩
      (Except.ok "x") rfl).1,
   (getRecommendations_no_session freshState ⟨duneRecord, false, "$0.00"⟩
      (Except.ok "x") rfl).2 (favoriteVisual false) "1"
      ⟨duneRecord, false, "$0.00"⟩ (by decide) rfl⟩

/-- C8: with a session present, a successful agent invocation stores the
returned text as the active recommendation (the fixed placeholder when
the response is empty), records the book's name as the active selection,
sets the RecommendationView visible, and emits no toast; in particular a
response "Try Foundation" is stored verbatim. -/
theorem getRecommendations_success (st : ComponentState) (book : Book)
    (s : String) (si : SessionInfo) (h : st.sessionInfo = some si) :
    (getRecommendations st book (Except.ok s)).1.showRecommendations = true ∧
    (getRecommendations st book (Except.ok s)).1.selectedBookName = book.Name ∧
    (getRecommendations st book (Except.ok s)).1.recommendations
      = (if s = "" then "No recommendations available at this time." else s) ∧
    (getRecommendations st book (Except.ok "Try Foundation")).1.recommendations
      = "Try Foundation" ∧
    (getRecommendations st book (Except.ok s)).2 = [] := by
  simp [getRecommendations, h]

/-- A state with an initialized session, used in witnesses. -/
def sessionState : ComponentState :=
  ⟨[], "", false, [], some ⟨"token", "session"⟩, false, "", ""⟩

/-- Witness for C8 at the concrete state `sessionState` and the response
"Try Foundation". -/
theorem getRecommendations_success_witness :
    (getRecommendations sessionState ⟨duneRecord, true, "$0.00"⟩
        (Except.ok "Try Foundation")).1.showRecommendations = true ∧
    (getRecommendations sessionState ⟨duneRecord, true, "$0.00"⟩
        (Except.ok "Try Foundation")).1.selectedBookName = "Dune" ∧
    (getRecommendations sessionState ⟨duneRecord, true, "$0.00"⟩
        (Except.ok "Try Foundation")).1.recommendations = "Try Foundation" :=
  ⟨(getRecommendations_success sessionState ⟨duneRecord, true, "$0.00"⟩
      "Try Foundation" ⟨"token", "session"⟩ rfl).1,
   (getRecommendations_success sessionState ⟨duneRecord, true, "$0.00"⟩
      "Try Foundation" ⟨"token", "session"⟩ rfl).2.1,
   (getRecommendations_success sessionState ⟨duneRecord, true, "$0.00"⟩
      "Try Foundation" ⟨"token", "session"⟩ rfl).2.2.2.1⟩

/-- C9: with a session present, a failing agent invocation emits exactly
the "Failed to get book recommendations" error toast and does not show
the RecommendationView (visibility and stored text are unchanged); the
loading flag is cleared after every agent outcome. -/
theorem getRecommendations_failure (st : ComponentState) (book : Book)
    (si : SessionInfo) (h : st.sessionInfo = some si) :
    (getRecommendations st book (Except.error ())).2
      = [⟨"Error", "Failed to get book recommendations", "error"⟩] ∧
    (getRecommendations st book (Except.error ())).1.showRecommendations
      = st.showRecommendations ∧
    (getRecommendations st book (Except.error ())).1.recommendations
      = st.recommendations ∧
    ∀ r, (getRecommendations st book r).1.isLoading = false := by
  refine ⟨by simp [getRecommendations, h], by simp [getRecommendations, h],
    by simp [getRecommendations, h], fun r => ?_⟩
  rcases r with _ | s <;> simp [getRecommendations, h]

/-- Witness for C9 at the concrete state `sessionState`. -/
theorem getRecommendations_failure_witness :
    (getRecommendations sessionState ⟨duneRecord, true, "$0.00"⟩
        (Except.error ())).2
      = [⟨"Error", "Failed to get book recommendations", "error"⟩] ∧
    (getRecommendations sessionState ⟨duneRecord, true, "$0.00"⟩
        (Except.error ())).1.showRecommendations = false ∧
    (getRecommendations sessionState ⟨duneRecord, true, "$0.00"⟩
        (Except.error ())).1.isLoading = false :=
  ⟨(getRecommendations_failure sessionState ⟨duneRecord, true, "$0.00"⟩
      ⟨"token", "session"⟩ rfl).1,
   (getRecommendations_failure sessionState ⟨duneRecord, true, "$0.00"⟩
      ⟨"token", "session"⟩ rfl).2.1,
   (getRecommendations_failure sessionState ⟨duneRecord, true, "$0.00"⟩
      ⟨"token", "session"⟩ rfl).2.2.2 (Except.error ())⟩

/-- C10: with no SessionInfo, `getRecommendations` returns before any
state mutation — the whole component state (hence `selectedBookName`,
`recommendations`, `showRecommendations` and the loading flag) is exactly
the state before the call, for every agent outcome. -/
theorem getRecommendations_no_session_pure (st : ComponentState) (book : Book)
    (r : Except Unit String) (h : st.sessionInfo = none) :
    (getRecommendations st book r).1 = st := by
  simp [getRecommendations, h]

/-- Witness for C10 at the concrete state `freshState`. -/
theorem getRecommendations_no_session_pure_witness :
    (getRecommendations freshState ⟨duneRecord, false, "$0.00"⟩
        (Except.ok "anything")).1 = freshState :=
  getRecommendations_no_session_pure freshState ⟨duneRecord, false, "$0.00"⟩
    (Except.ok "anything") rfl

end BookSearch
